import Mathlib

/-!
Verification development for the weather-damage dashboard pipeline
(`src/components/WeatherDamageDashboard.js`, primary variant, and the
second observed dashboard variant).  JavaScript numbers are embedded in
two layers: a `JSNumber` layer of exact rationals extended with `NaN`
and the two infinities, used where the properties at stake are about
`NaN` propagation, comparison, or rounding-insensitive values, and an
IEEE binary64 layer (`fpRound` and the `fp` operations, exact double
values as rationals with round-to-nearest-even after every operation)
used where a claim asserts exact output values that rounding can
perturb, as in the scenario calculator.  Strings are Lean strings; rows
and events are records with `Option String` fields so that an absent
CSV column is `none` (JavaScript `undefined`).
-/

namespace WeatherDash

/-- Rational addition by the textbook numerator/denominator formula.
Extensionally equal to Mathlib's addition (`ratAdd_eq` below); spelled
this way so that the kernel can evaluate it on literals, which the
irreducible library operation prevents. -/
def ratAdd (a b : ℚ) : ℚ := mkRat (a.num * b.den + b.num * a.den) (a.den * b.den)

/-- Rational multiplication by the numerator/denominator formula, equal
to Mathlib's multiplication (`ratMul_eq` below). -/
def ratMul (a b : ℚ) : ℚ := mkRat (a.num * b.num) (a.den * b.den)

/-- Rational division by the numerator/denominator formula, equal to
Mathlib's division (`ratDiv_eq` below); division by zero gives zero,
matching Mathlib (the JavaScript layer below never reaches this case
with a zero divisor). -/
def ratDiv (a b : ℚ) : ℚ := Rat.divInt (a.num * b.den) (a.den * b.num)

/-- Model of a JavaScript number: an exact rational, `NaN`, or an
infinity.  The negative zero of IEEE arithmetic is not distinguished
from zero. -/
inductive JSNumber where
  | nan : JSNumber
  | posInf : JSNumber
  | negInf : JSNumber
  | fin : ℚ → JSNumber
deriving DecidableEq

namespace JSNumber

/-- JavaScript addition: `NaN` is absorbing, opposite infinities give `NaN`. -/
def jsAdd : JSNumber → JSNumber → JSNumber
  | nan, _ => nan
  | _, nan => nan
  | posInf, negInf => nan
  | negInf, posInf => nan
  | posInf, _ => posInf
  | _, posInf => posInf
  | negInf, _ => negInf
  | _, negInf => negInf
  | fin a, fin b => fin (ratAdd a b)

/-- JavaScript negation. -/
def jsNeg : JSNumber → JSNumber
  | nan => nan
  | posInf => negInf
  | negInf => posInf
  | fin a => fin (-a)

/-- JavaScript subtraction. -/
def jsSub (a b : JSNumber) : JSNumber := jsAdd a (jsNeg b)

/-- JavaScript multiplication: `NaN` absorbing, `0 * Infinity = NaN`. -/
def jsMul : JSNumber → JSNumber → JSNumber
  | nan, _ => nan
  | _, nan => nan
  | posInf, posInf => posInf
  | posInf, negInf => negInf
  | negInf, posInf => negInf
  | negInf, negInf => posInf
  | posInf, fin b => if b = 0 then nan else if 0 < b then posInf else negInf
  | negInf, fin b => if b = 0 then nan else if 0 < b then negInf else posInf
  | fin a, posInf => if a = 0 then nan else if 0 < a then posInf else negInf
  | fin a, negInf => if a = 0 then nan else if 0 < a then negInf else posInf
  | fin a, fin b => fin (ratMul a b)

/-- JavaScript division: `0 / 0 = NaN`, nonzero over zero gives a signed
infinity (the sign of zero is not modelled). -/
def jsDiv : JSNumber → JSNumber → JSNumber
  | nan, _ => nan
  | _, nan => nan
  | posInf, posInf => nan
  | posInf, negInf => nan
  | negInf, posInf => nan
  | negInf, negInf => nan
  | posInf, fin b => if 0 ≤ b then posInf else negInf
  | negInf, fin b => if 0 ≤ b then negInf else posInf
  | fin _, posInf => fin 0
  | fin _, negInf => fin 0
  | fin a, fin b =>
      if b = 0 then (if a = 0 then nan else if 0 < a then posInf else negInf)
      else fin (ratDiv a b)

/-- JavaScript strict equality `===` on numbers: `NaN` is not equal to
anything, including itself. -/
def jsStrictEq : JSNumber → JSNumber → Bool
  | nan, _ => false
  | _, nan => false
  | posInf, posInf => true
  | negInf, negInf => true
  | fin a, fin b => a == b
  | _, _ => false

/-- JavaScript `isNaN` applied to a number. -/
def jsIsNaN : JSNumber → Bool
  | nan => true
  | _ => false

/-- JavaScript `<` on numbers: any comparison with `NaN` is false. -/
def jsLtB : JSNumber → JSNumber → Bool
  | nan, _ => false
  | _, nan => false
  | posInf, _ => false
  | negInf, negInf => false
  | negInf, _ => true
  | fin _, posInf => true
  | fin _, negInf => false
  | fin a, fin b => decide (a < b)

/-- JavaScript `Math.round`: half-way cases round toward positive
infinity; `NaN` and infinities pass through. -/
def jsRound : JSNumber → JSNumber
  | nan => nan
  | posInf => posInf
  | negInf => negInf
  | fin a => fin ((Rat.floor (ratAdd a (mkRat 1 2)) : ℤ) : ℚ)

end JSNumber

open JSNumber

/-- Truthiness of an optional string field: JavaScript `undefined` and the
empty string are the only falsy values that can occur there. -/
def jsTruthyStr : Option String → Bool
  | none => false
  | some s => !(s == "")

/-- String coercion of an optional string, as JavaScript performs in
template literals and when an object property is used as a key:
`undefined` coerces to the string "undefined". -/
def strOfUndef : Option String → String
  | none => "undefined"
  | some s => s

/-- Numeric value of a list of decimal digit characters. -/
def digitsToNat (ds : List Char) : ℕ :=
  ds.foldl (fun a c => 10 * a + (c.toNat - 48)) 0

/-- Model of JavaScript `parseFloat`: skip leading whitespace, read an
optional sign, then either the keyword `Infinity` or a decimal literal
(integer digits, optional fraction, optional exponent); if no digits are
found the result is `NaN`.  Trailing garbage is ignored, as in
JavaScript. -/
def parseFloatStr (s : String) : JSNumber :=
  let cs := s.data.dropWhile Char.isWhitespace
  let neg : Bool := match cs with
    | '-' :: _ => true
    | _ => false
  let cs1 := match cs with
    | '-' :: rest => rest
    | '+' :: rest => rest
    | _ => cs
  if cs1.take 8 = "Infinity".data then
    (if neg then JSNumber.negInf else JSNumber.posInf)
  else
    let intDigits := cs1.takeWhile Char.isDigit
    let rest1 := cs1.drop intDigits.length
    let fracDigits := match rest1 with
      | '.' :: r => r.takeWhile Char.isDigit
      | _ => []
    let rest2 := match rest1 with
      | '.' :: r => r.drop (r.takeWhile Char.isDigit).length
      | _ => rest1
    if intDigits.isEmpty && fracDigits.isEmpty then JSNumber.nan
    else
      let expv : ℤ := match rest2 with
        | 'e' :: r => expDigits r
        | 'E' :: r => expDigits r
        | _ => 0
      -- the value sign * (int.frac) * 10^expv, assembled as one exact
      -- rational from integer arithmetic
      let sgnInt : ℤ := if neg then -1 else 1
      let mantNum : ℤ :=
        (digitsToNat intDigits * 10 ^ fracDigits.length + digitsToNat fracDigits : ℕ)
      let num : ℤ := sgnInt * mantNum * 10 ^ expv.toNat
      let den : ℕ := 10 ^ (fracDigits.length + (-expv).toNat)
      JSNumber.fin (mkRat num den)
where
  /-- Signed exponent digits after `e`/`E`; a malformed exponent is
  ignored (JavaScript stops parsing there, leaving exponent zero). -/
  expDigits (r : List Char) : ℤ :=
    match r with
    | '-' :: ds =>
        let es := ds.takeWhile Char.isDigit
        if es.isEmpty then 0 else -(digitsToNat es : ℤ)
    | '+' :: ds =>
        let es := ds.takeWhile Char.isDigit
        if es.isEmpty then 0 else (digitsToNat es : ℤ)
    | ds =>
        let es := ds.takeWhile Char.isDigit
        if es.isEmpty then 0 else (digitsToNat es : ℤ)

/-- `parseFloat` applied to a possibly absent field; JavaScript
`parseFloat(undefined)` coerces the argument to the string
"undefined" and yields `NaN`. -/
def parseFloatOpt : Option String → JSNumber
  | none => JSNumber.nan
  | some s => parseFloatStr s

/-- Model of JavaScript `parseInt` with no radix argument on decimal
input: skip whitespace, optional sign, then a maximal run of decimal
digits; no digits yields `NaN`.  (The hexadecimal `0x` prefix is not
modelled; it cannot occur in the dashboard's date strings.) -/
def parseIntStr (s : String) : JSNumber :=
  let cs := s.data.dropWhile Char.isWhitespace
  let sgn : ℤ := match cs with
    | '-' :: _ => -1
    | _ => 1
  let cs1 := match cs with
    | '-' :: rest => rest
    | '+' :: rest => rest
    | _ => cs
  let ds := cs1.takeWhile Char.isDigit
  if ds.isEmpty then JSNumber.nan
  else JSNumber.fin ((sgn * (digitsToNat ds : ℤ) : ℤ) : ℚ)

/-- `parseInt` applied to a possibly absent value (an out-of-range index
into the split date parts is `undefined`, which parses to `NaN`). -/
def parseIntOpt : Option String → JSNumber
  | none => JSNumber.nan
  | some s => parseIntStr s

/-- JavaScript `String.prototype.includes`: substring containment. -/
def strIncludes (s sub : String) : Bool :=
  decide (sub.data <:+: s.data)

/-- Model of JavaScript `String.prototype.split` with a one-character
separator, written structurally over the character list: `""` splits to
`[""]`, separators at the ends produce empty fields. -/
def splitOnChar (c : Char) : List Char → List (List Char)
  | [] => [[]]
  | a :: rest =>
      let r := splitOnChar c rest
      if a = c then [] :: r
      else
        match r with
        | h :: t => (a :: h) :: t
        | [] => [[a]]

/-- `split('/')` of a string, as used on the date column. -/
def splitSlashStr (s : String) : List String :=
  (splitOnChar '/' s.data).map (fun l => String.mk l)

/-- Truncation toward zero of a rational, as JavaScript `ToInteger`
performs on finite `Date` constructor arguments. -/
def ratTrunc (q : ℚ) : ℤ := Int.tdiv q.num q.den

/-- Day count since 1970-01-01 of the Gregorian date `y-m-d`, with
`m` in `1..12` (days-from-civil algorithm, valid for all years). -/
def daysFromCivil (y m d : ℤ) : ℤ :=
  let y1 := if m ≤ 2 then y - 1 else y
  let era := Int.fdiv y1 400
  let yoe := y1 - era * 400
  let doy := Int.fdiv (153 * (if 2 < m then m - 3 else m + 9) + 2) 5 + d - 1
  let doe := yoe * 365 + Int.fdiv yoe 4 - Int.fdiv yoe 100 + doy
  era * 146097 + doe - 719468

/-- Calendar year of a day count since 1970-01-01 (civil-from-days
algorithm, returning only the year component). -/
def civilYearFromDays (z0 : ℤ) : ℤ :=
  let z := z0 + 719468
  let era := Int.fdiv z 146097
  let doe := z - era * 146097
  let yoe := Int.fdiv (doe - Int.fdiv doe 1460 + Int.fdiv doe 36524 - Int.fdiv doe 146096) 365
  let y := yoe + era * 400
  let doy := doe - (365 * yoe + Int.fdiv yoe 4 - Int.fdiv yoe 100)
  let mp := Int.fdiv (5 * doy + 2) 153
  let m := if mp < 10 then mp + 3 else mp - 9
  if m ≤ 2 then y + 1 else y

/-- Model of a JavaScript `Date` value: either the invalid date or a
day count since the epoch (the dashboard only ever constructs midnight
dates, so time components below a day are not modelled). -/
inductive JSDate where
  | invalid : JSDate
  | valid : ℤ → JSDate
deriving DecidableEq

/-- Model of `new Date(year, monthIndex, day)`: any `NaN` or infinite
argument produces an invalid date; a year argument in `0..99` is offset
by 1900; the month index is normalized into the year with floor
semantics and day overflow rolls across month and year boundaries; a
result outside the representable JavaScript time range is invalid. -/
def mkJsDate (y m d : JSNumber) : JSDate :=
  match y, m, d with
  | JSNumber.fin yq, JSNumber.fin mq, JSNumber.fin dq =>
      let yi0 := ratTrunc yq
      let yi := if 0 ≤ yi0 ∧ yi0 ≤ 99 then 1900 + yi0 else yi0
      let mi := ratTrunc mq
      let di := ratTrunc dq
      let ny := yi + Int.fdiv mi 12
      let nm := Int.emod mi 12
      let days := daysFromCivil ny (nm + 1) 1 + (di - 1)
      if days.natAbs ≤ 100000000 then JSDate.valid days else JSDate.invalid
  | _, _, _ => JSDate.invalid

/-- JavaScript `Date.prototype.getFullYear`: `NaN` on an invalid date,
otherwise the calendar year. -/
def jsDateFullYear : JSDate → JSNumber
  | JSDate.invalid => JSNumber.nan
  | JSDate.valid days => JSNumber.fin ((civilYearFromDays days : ℤ) : ℚ)

/-- Model of `new Date(string)` on the dashboard's slash-separated date
strings, following the engine's non-ISO fallback parse: `MM/DD/YY` or
`MM/DD/YYYY`, where a two-digit year below 50 is read as `20YY` and one
in `50..99` as `19YY`; anything else is the invalid date
(`new Date(undefined)` is also invalid). -/
def jsDateOfString : Option String → JSDate
  | none => JSDate.invalid
  | some s =>
      match (splitSlashStr s).map parseIntStr with
      | [JSNumber.fin mq, JSNumber.fin dq, JSNumber.fin yq] =>
          let m := ratTrunc mq
          let d := ratTrunc dq
          let y0 := ratTrunc yq
          let y := if 0 ≤ y0 ∧ y0 < 50 then 2000 + y0
                   else if 50 ≤ y0 ∧ y0 ≤ 99 then 1900 + y0 else y0
          if 1 ≤ m ∧ m ≤ 12 ∧ 1 ≤ d ∧ d ≤ 31 then
            JSDate.valid (daysFromCivil y m d)
          else JSDate.invalid
      | _ => JSDate.invalid

/-- One parsed CSV row, header-driven: each field is `none` when the
column is absent on that row (JavaScript `undefined`).  Field names
mirror the CSV headers: `Cost`, `Date of Weather Event`, `Year`,
`Weather Event`, `Named Storm`, `Installation`, `State`, `Branch`. -/
structure Row where
  Cost : Option String
  dateOfWeatherEvent : Option String
  Year : Option String
  weatherEvent : Option String
  namedStorm : Option String
  installation : Option String
  state : Option String
  branch : Option String
deriving DecidableEq

/-- One cleaned weather event as built by the ingestion `map` steps. -/
structure Event where
  Cost : JSNumber
  Year : JSNumber
  date : JSDate
  weatherEvent : Option String
  namedStorm : Option String
  installation : Option String
  weatherEventFull : Option String
deriving DecidableEq

/-- Row-retention test of the primary variant, line for line:
`item.Cost && !isNaN(parseFloat(item.Cost))`. -/
def primaryHasCost (r : Row) : Bool :=
  jsTruthyStr r.Cost && !(jsIsNaN (parseFloatOpt r.Cost))

/-- Row-retention test of the primary variant for the date field:
`item['Date of Weather Event']` must be truthy; the text is not
otherwise validated. -/
def primaryHasDate (r : Row) : Bool :=
  jsTruthyStr r.dateOfWeatherEvent

/-- Slash-split of an optional date string (`undefined` never reaches
the split in the source because the retention filter runs first). -/
def splitSlash : Option String → List String
  | none => []
  | some s => splitSlashStr s

/-- Year derivation of the primary variant: always from the parsed
`MM/DD/YY` date, `new Date(2000 + parseInt(p[2]), parseInt(p[0]) - 1,
parseInt(p[1])).getFullYear()`; a malformed date yields `NaN`. -/
def primaryParsedDate (r : Row) : JSDate :=
  let p := splitSlash r.dateOfWeatherEvent
  mkJsDate
    (jsAdd (JSNumber.fin 2000) (parseIntOpt (p.get? 2)))
    (jsSub (parseIntOpt (p.get? 0)) (JSNumber.fin 1))
    (parseIntOpt (p.get? 1))

/-- Year value produced by the primary ingestion variant (always
derived from the parsed date, ignoring any literal `Year` column). -/
def yearVariantA (r : Row) : JSNumber :=
  jsDateFullYear (primaryParsedDate r)

/-- Year value produced by the second observed variant: the literal
`Year` column is trusted when truthy, and the date string is parsed
only as a fallback. -/
def yearVariantB (r : Row) : JSNumber :=
  if jsTruthyStr r.Year then parseFloatOpt r.Year
  else jsDateFullYear (jsDateOfString r.dateOfWeatherEvent)

/-- Event record built by the primary variant's `map` callback.  The
surrounding `try`/`catch` of the source can never fire: `split`,
`parseInt` and the `Date` constructor are total (a malformed date text
gives an invalid date, not an exception), which is why this function is
total as well. -/
def primaryMkEvent (r : Row) : Event :=
  { Cost := parseFloatOpt r.Cost
    Year := yearVariantA r
    date := primaryParsedDate r
    weatherEvent := r.weatherEvent
    namedStorm := r.namedStorm
    installation := r.installation
    weatherEventFull :=
      if jsTruthyStr r.namedStorm then
        some (strOfUndef r.weatherEvent ++ " (" ++ strOfUndef r.namedStorm ++ ")")
      else r.weatherEvent }

/-- The primary variant's `map` callback including its dead `catch`
branch, which would return `null` (`none`) on an exception; no
exception can occur, so the result is always `some`. -/
def primaryProcessRow (r : Row) : Option Event :=
  some (primaryMkEvent r)

/-- Cleaned data set of the primary variant: filter rows on cost and
date presence, map them to events, drop `null` results. -/
def cleanedData (rows : List Row) : List Event :=
  ((rows.filter (fun r => primaryHasCost r && primaryHasDate r)).map
      primaryProcessRow).filterMap id

/-- Outcome of the primary variant's load sequence once the CSV text is
parsed into rows. -/
inductive LoadOutcome where
  | error : String → LoadOutcome
  | loaded : List Event → LoadOutcome
deriving DecidableEq

/-- The primary variant's parse-complete handler: an empty cleaned set
throws `No valid data after cleaning`, which the enclosing fetch handler
catches and surfaces as the fatal error state; otherwise the cleaned
events become the session's data set. -/
def loadOutcome (rows : List Row) : LoadOutcome :=
  if (cleanedData rows).length = 0 then
    LoadOutcome.error "Error fetching data: No valid data after cleaning"
  else LoadOutcome.loaded (cleanedData rows)

/-- Row-retention test of the second variant:
`item.Cost && !isNaN(parseFloat(item.Cost))`; the date is not examined. -/
def part1HasCost (r : Row) : Bool :=
  jsTruthyStr r.Cost && !(jsIsNaN (parseFloatOpt r.Cost))

/-- Event record built by the second variant's `map` callback. -/
def part1MkEvent (r : Row) : Event :=
  { Cost := parseFloatOpt r.Cost
    Year := yearVariantB r
    date := jsDateOfString r.dateOfWeatherEvent
    weatherEvent := r.weatherEvent
    namedStorm := r.namedStorm
    installation := r.installation
    weatherEventFull := r.weatherEvent }

/-- Cleaned data set of the second variant. -/
def part1CleanedData (rows : List Row) : List Event :=
  (rows.filter part1HasCost).map part1MkEvent

/-- Lowercasing followed by trimming, `type.toLowerCase().trim()`,
written structurally over the character list so the kernel can evaluate
it (ASCII lowercasing; the keyword sets are ASCII). -/
def toLowerTrim (s : String) : String :=
  String.mk
    ((((s.data.map Char.toLower).dropWhile Char.isWhitespace).reverse.dropWhile
        Char.isWhitespace).reverse)

/-- The keyword `nor'easter` of the Severe Storm rule (the apostrophe is
character 39). -/
def norEasterKw : String :=
  "nor" ++ String.mk [Char.ofNat 39] ++ "easter"

/-- The classifier `normalizeWeatherType`, transcribed clause for clause
from the source: a falsy description is `Other`; otherwise the
lowercased, trimmed description is tested by `includes` against each
category's keywords in source order, first hit wins. -/
def normalizeWeatherType (type? : Option String) : String :=
  if !(jsTruthyStr type?) then "Other"
  else
    let lowerType := toLowerTrim (strOfUndef type?)
    if strIncludes lowerType "hurricane" || strIncludes lowerType "tropical" ||
        strIncludes lowerType "cyclone" || strIncludes lowerType "mawar" then
      "Hurricane/Tropical Storm"
    else if strIncludes lowerType "winter" || strIncludes lowerType "snow" ||
        strIncludes lowerType "arctic" || strIncludes lowerType "ice" then
      "Winter Storm"
    else if strIncludes lowerType "storm" || strIncludes lowerType "wind" ||
        strIncludes lowerType norEasterKw || strIncludes lowerType "atmospheric river" then
      "Severe Storm"
    else if strIncludes lowerType "flood" || strIncludes lowerType "water" ||
        strIncludes lowerType "rain" then
      "Flooding"
    else if strIncludes lowerType "tornado" || strIncludes lowerType "torando" then
      "Tornado"
    else if strIncludes lowerType "hail" then "Hail"
    else if strIncludes lowerType "fire" then "Fire"
    else if strIncludes lowerType "earthquake" then "Earthquake"
    else if strIncludes lowerType "wave" then "Wave"
    else "Other"

/-- The ordered rule list of the specification (section 4.2): category
label paired with its keyword set, in matching order. -/
def classifyRules : List (String × List String) :=
  [ ("Hurricane/Tropical Storm", ["hurricane", "tropical", "cyclone", "mawar"]),
    ("Winter Storm", ["winter", "snow", "arctic", "ice"]),
    ("Severe Storm", ["storm", "wind", norEasterKw, "atmospheric river"]),
    ("Flooding", ["flood", "water", "rain"]),
    ("Tornado", ["tornado", "torando"]),
    ("Hail", ["hail"]),
    ("Fire", ["fire"]),
    ("Earthquake", ["earthquake"]),
    ("Wave", ["wave"]) ]

/-- The classifier as the specification words it: first rule of the
ordered list whose keyword set has a case-insensitive, whitespace-trimmed
substring hit; no hit is `Other`. -/
def classifySpec (t : String) : String :=
  match classifyRules.find?
      (fun rule => rule.2.any (fun k => strIncludes (toLowerTrim t) k)) with
  | some rule => rule.1
  | none => "Other"

/-- The ten categories the classifier can produce. -/
def allCategories : List String :=
  [ "Hurricane/Tropical Storm", "Winter Storm", "Severe Storm", "Flooding",
    "Tornado", "Hail", "Fire", "Earthquake", "Wave", "Other" ]

/-- Strict inequality comparison of an optional string against a string,
as JavaScript `!==` behaves when the left side may be `undefined`
(negated here to an equality test: `undefined` equals no string). -/
def optStrEq : Option String → String → Bool
  | none, _ => false
  | some t, s => t == s

/-- Filter stage of the primary variant: year selector against the
derived `Year` by JavaScript strict equality, and type selector against
the classifier's category. -/
def filteredData (weatherData : List Event) (selectedYear selectedWeatherType : String) :
    List Event :=
  weatherData.filter (fun item =>
    if (!(selectedYear == "all")) && !(jsStrictEq item.Year (parseFloatStr selectedYear)) then
      false
    else if (!(selectedWeatherType == "all")) &&
        !(normalizeWeatherType item.weatherEvent == selectedWeatherType) then
      false
    else true)

/-- Filter stage of the second variant: the type selector is compared
against the raw `Weather Event` string, not a derived category. -/
def part1FilteredData (weatherData : List Event) (selectedYear selectedWeatherType : String) :
    List Event :=
  weatherData.filter (fun item =>
    if (!(selectedYear == "all")) && !(jsStrictEq item.Year (parseFloatStr selectedYear)) then
      false
    else if (!(selectedWeatherType == "all")) &&
        !(optStrEq item.weatherEvent selectedWeatherType) then
      false
    else true)

/-- Lodash `_.sumBy(list, 'Cost')`: the JavaScript sum of the cost
fields, `0` on the empty list. -/
def jsSumBy (l : List Event) : JSNumber :=
  l.foldl (fun acc e => jsAdd acc e.Cost) (JSNumber.fin 0)

/-- Grouping key used by `_.groupBy('Weather Event')` (object keys are
strings; `undefined` coerces to "undefined"). -/
def weKeyOf (e : Event) : String := strOfUndef e.weatherEvent

/-- Grouping key used by `_.groupBy('Installation')`. -/
def instKeyOf (e : Event) : String := strOfUndef e.installation

/-- Keys in order of first appearance, as lodash `groupBy` produces them
for non-numeric string keys (object insertion order). -/
def firstKeys : List String → List String
  | [] => []
  | k :: ks => k :: ((firstKeys ks).filter (fun x => !(x == k)))

/-- One aggregate record of a name/value view. -/
structure CostBucket where
  name : String
  value : JSNumber
deriving DecidableEq

/-- One aggregate record of the by-type view, with its percentage. -/
structure TypeBucket where
  name : String
  value : JSNumber
  percentage : JSNumber
deriving DecidableEq

/-- The second variant's `costByWeatherType`: group the filtered events
by raw `Weather Event` key, then map each group to name, cost sum, and
`Math.round((groupSum / totalSum) * 100)`. -/
def costByWeatherType (filtered : List Event) : List TypeBucket :=
  (firstKeys (filtered.map weKeyOf)).map (fun k =>
    { name := k
      value := jsSumBy (filtered.filter (fun e => weKeyOf e == k))
      percentage :=
        jsRound (jsMul
          (jsDiv (jsSumBy (filtered.filter (fun e => weKeyOf e == k))) (jsSumBy filtered))
          (JSNumber.fin 100)) })

/-- The second variant's `avgCostPerEvent`:
`_.sumBy(filteredData, 'Cost') / filteredData.length`. -/
def avgCostPerEvent (filtered : List Event) : JSNumber :=
  jsDiv (jsSumBy filtered) (JSNumber.fin ((filtered.length : ℕ) : ℚ))

/-- The groupBy-then-map front half of `costByInstallation`: one bucket
per installation key in discovery order, holding that group's cost sum. -/
def instGroupTotals (evs : List Event) : List CostBucket :=
  (firstKeys (evs.map instKeyOf)).map (fun k =>
    { name := k, value := jsSumBy (evs.filter (fun e => instKeyOf e == k)) })

/-- Insertion step of a stable descending sort on `value`: the new
element passes over strictly larger values and stops before the first
value it is not less than, so existing equal values keep their earlier
positions relative to later arrivals. -/
def insertDescBucket (a : CostBucket) : List CostBucket → List CostBucket
  | [] => [a]
  | b :: bs =>
      if jsLtB a.value b.value then b :: insertDescBucket a bs
      else a :: b :: bs

/-- Stable descending sort on `value`, modelling lodash
`_.orderBy(['value'], ['desc'])` (documented stable). -/
def sortDescBuckets : List CostBucket → List CostBucket
  | [] => []
  | x :: xs => insertDescBucket x (sortDescBuckets xs)

/-- The second variant's `costByInstallation`: group by installation,
total each group, stable-sort descending by total, `slice(0, 10)`. -/
def costByInstallation (evs : List Event) : List CostBucket :=
  (sortDescBuckets (instGroupTotals evs)).take 10

/-- One scenario catalog entry (`type` of the source is `stype` here). -/
structure Scenario where
  id : String
  name : String
  reduction : ℚ
  cost : ℚ
  stype : String
deriving DecidableEq

/-- The fixed scenario catalog, identical in both variants. -/
def scenarios : List Scenario :=
  [ { id := "scenario1", name := "Enhanced stormwater infrastructure",
      reduction := 0.25, cost := 2000000, stype := "flood" },
    { id := "scenario2", name := "Wind-resistant building upgrades",
      reduction := 0.40, cost := 3500000, stype := "hurricane" },
    { id := "scenario3", name := "Wildfire prevention measures",
      reduction := 0.30, cost := 1500000, stype := "fire" },
    { id := "scenario4", name := "Winter weather preparedness",
      reduction := 0.20, cost := 1000000, stype := "winter" } ]

/-- The `forEach` accumulation of `calculateScenarioImpact`: total
reduction fraction and total implementation cost of the selected ids
(unknown ids contribute nothing).  This version accumulates in exact
rational arithmetic; `scenarioTotalsFP` below is the IEEE binary64
version, which is the faithful one wherever the sub-ulp value of the
result matters. -/
def scenarioTotals (selectedScenarios : List String) : ℚ × ℚ :=
  selectedScenarios.foldl
    (fun acc sid =>
      match scenarios.find? (fun s => s.id == sid) with
      | some s => (acc.1 + s.reduction, acc.2 + s.cost)
      | none => acc)
    (0, 0)

/-- Result record of the scenario calculator. -/
structure ScenarioResult where
  currentProjection : JSNumber
  withMitigation : JSNumber
  savings : JSNumber
  cost : JSNumber
deriving DecidableEq

/-- `calculateScenarioImpact`, identical in both variants:
`reducedCost = base * (1 - totalReduction / selected.length)`,
`savings = base - reducedCost`.  The division is JavaScript division, so
an empty selection divides zero by zero.  Arithmetic here is exact
rational arithmetic, adequate for the NaN behaviour of the empty
selection (where every value involved is exact);
`calculateScenarioImpactFP` below applies IEEE binary64 rounding to
every operation and is the faithful model where exact output values are
asserted. -/
def calculateScenarioImpact (selectedScenarios : List String) : ScenarioResult :=
  let baseProjection : ℚ := 24500000
  let totals := scenarioTotals selectedScenarios
  let reducedCost :=
    jsMul (JSNumber.fin baseProjection)
      (jsSub (JSNumber.fin 1)
        (jsDiv (JSNumber.fin totals.1)
          (JSNumber.fin ((selectedScenarios.length : ℕ) : ℚ))))
  let savings := jsSub (JSNumber.fin baseProjection) reducedCost
  { currentProjection := JSNumber.fin baseProjection
    withMitigation := reducedCost
    savings := savings
    cost := JSNumber.fin totals.2 }

/-- Floor of the base-2 logarithm, structurally recursive on a fuel
argument so the kernel can evaluate it. -/
def log2floorAux : ℕ → ℕ → ℕ
  | 0, _ => 0
  | fuel + 1, n => if 2 ≤ n then log2floorAux fuel (n / 2) + 1 else 0

/-- Floor of the base-2 logarithm of a natural number (0 for 0). -/
def log2floor (n : ℕ) : ℕ := log2floorAux n n

/-- Integer power of two as a rational. -/
def pow2 (e : ℤ) : ℚ :=
  if 0 ≤ e then ((2 ^ e.toNat : ℕ) : ℚ) else mkRat 1 (2 ^ (-e).toNat)

/-- Floor of the base-2 logarithm of a positive rational: the unique `e`
with `2 ^ e ≤ q < 2 ^ (e + 1)`, found from the numerator and denominator
bit lengths and corrected by direct comparison. -/
def floorLog2 (q : ℚ) : ℤ :=
  let e0 : ℤ := (log2floor q.num.natAbs : ℤ) - (log2floor q.den : ℤ)
  if pow2 (e0 + 1) ≤ q then e0 + 1
  else if pow2 e0 ≤ q then e0
  else e0 - 1

/-- Round a rational to the nearest integer, ties to even. -/
def roundNearestEven (x : ℚ) : ℤ :=
  let f := Rat.floor x
  let r := ratAdd x (-(f : ℚ))
  if r < mkRat 1 2 then f
  else if mkRat 1 2 < r then f + 1
  else if Int.emod f 2 = 0 then f else f + 1

/-- Round a rational to the value of the nearest IEEE-754 binary64
double (round to nearest, ties to even, 53-bit significand).  Overflow
and subnormals are not modelled: every intermediate of the scenario
calculator stays far inside the normal range. -/
def fpRound (q : ℚ) : ℚ :=
  if q = 0 then 0
  else
    let a := if q < 0 then -q else q
    let e := floorLog2 a
    let m := roundNearestEven (ratMul a (pow2 (52 - e)))
    let v := ratMul ((m : ℤ) : ℚ) (pow2 (e - 52))
    if q < 0 then -v else v

/-- IEEE binary64 addition on exact double values: exact rational sum
followed by rounding. -/
def fpAdd (a b : ℚ) : ℚ := fpRound (ratAdd a b)

/-- IEEE binary64 subtraction. -/
def fpSub (a b : ℚ) : ℚ := fpRound (ratAdd a (-b))

/-- IEEE binary64 multiplication. -/
def fpMul (a b : ℚ) : ℚ := fpRound (ratMul a b)

/-- IEEE binary64 division (callers never pass a zero divisor here; the
zero-divisor NaN path is handled at the JavaScript-number layer). -/
def fpDiv (a b : ℚ) : ℚ := fpRound (ratDiv a b)

/-- The `forEach` accumulation of `calculateScenarioImpact` under IEEE
binary64 semantics: the catalog's decimal literals denote their nearest
doubles (`fpRound`) and every `+=` rounds its result (`fpAdd`). -/
def scenarioTotalsFP (selectedScenarios : List String) : ℚ × ℚ :=
  selectedScenarios.foldl
    (fun acc sid =>
      match scenarios.find? (fun s => s.id == sid) with
      | some s => (fpAdd acc.1 (fpRound s.reduction), fpAdd acc.2 (fpRound s.cost))
      | none => acc)
    (0, 0)

/-- `calculateScenarioImpact` under IEEE binary64 semantics: every
arithmetic operation of
`base * (1 - totalReduction / selected.length)` and
`base - reducedCost` rounds to the nearest double.  The zero-length
selection performs `0 / 0 = NaN`, which this rational carrier cannot
hold, so that branch is written explicitly and produces the same `NaN`
results as the rational model. -/
def calculateScenarioImpactFP (selectedScenarios : List String) : ScenarioResult :=
  let baseProjection : ℚ := 24500000
  let totals := scenarioTotalsFP selectedScenarios
  if selectedScenarios.length = 0 then
    { currentProjection := JSNumber.fin baseProjection, withMitigation := JSNumber.nan,
      savings := JSNumber.nan, cost := JSNumber.fin totals.2 }
  else
    let reducedCost :=
      fpMul baseProjection
        (fpSub 1 (fpDiv totals.1 ((selectedScenarios.length : ℕ) : ℚ)))
    let savings := fpSub baseProjection reducedCost
    { currentProjection := JSNumber.fin baseProjection
      withMitigation := JSNumber.fin reducedCost
      savings := JSNumber.fin savings
      cost := JSNumber.fin totals.2 }

/-- Retention predicate exactly as claim C3 words it: a row is kept iff
its cost is present and parseable as a number and its date field is
present and parses into a valid calendar date (through the code's
`MM/DD/YY` route). -/
def claimRowRetained (r : Row) : Bool :=
  (jsTruthyStr r.Cost && !(jsIsNaN (parseFloatOpt r.Cost))) &&
    (jsTruthyStr r.dateOfWeatherEvent && !(primaryParsedDate r == JSDate.invalid))

/-- Shorthand for the reduction fraction of a scenario id (0 for an
unknown id), used to state additivity of the selection sum. -/
def scenarioReduction (sid : String) : ℚ :=
  match scenarios.find? (fun s => s.id == sid) with
  | some s => s.reduction
  | none => 0

/-- A well-formed CSV row: cost 1000, date 01/15/23, a hurricane at
Fort Bragg. -/
def goodRow : Row :=
  { Cost := some "1000", dateOfWeatherEvent := some "01/15/23", Year := none,
    weatherEvent := some "Hurricane Ian", namedStorm := none,
    installation := some "Fort Bragg", state := none, branch := none }

/-- A row whose date field is present but not a parseable `MM/DD/YY`
date. -/
def badDateRow : Row :=
  { Cost := some "1000", dateOfWeatherEvent := some "garbage", Year := none,
    weatherEvent := some "Flood", namedStorm := none,
    installation := some "Fort Hood", state := none, branch := none }

/-- A row carrying both a literal `Year` column (1999) and a date
(01/15/23) whose derived year is 2023 — the two ingestion variants
disagree on it. -/
def divergentYearRow : Row :=
  { Cost := some "1000", dateOfWeatherEvent := some "01/15/23", Year := some "1999",
    weatherEvent := some "Winter Storm", namedStorm := none,
    installation := some "Fort Drum", state := none, branch := none }

/-- A cleaned event with cost zero (the ingested form of a `Cost` column
holding "0", which the row filter keeps). -/
def zeroCostEvent : Event :=
  { Cost := JSNumber.fin 0, Year := JSNumber.fin 2023, date := JSDate.valid 19372,
    weatherEvent := some "Flood", namedStorm := none,
    installation := some "Fort Hood", weatherEventFull := some "Flood" }

/-- A cleaned event whose raw description is "Hurricane Mawar" — its
derived category is Hurricane/Tropical Storm but the raw string differs
from the category label. -/
def mawarEvent : Event :=
  { Cost := JSNumber.fin 500, Year := JSNumber.fin 2023, date := JSDate.valid 19372,
    weatherEvent := some "Hurricane Mawar", namedStorm := none,
    installation := some "Fort Bragg", weatherEventFull := some "Hurricane Mawar" }

/-! ## Supporting lemmas and claim theorems -/

theorem ratAdd_eq (a b : ℚ) : ratAdd a b = a + b := by
  rw [ratAdd, Rat.mkRat_eq_div]
  have ha : ((a.den : ℚ)) ≠ 0 := by exact_mod_cast a.den_ne_zero
  have hb : ((b.den : ℚ)) ≠ 0 := by exact_mod_cast b.den_ne_zero
  conv_rhs => rw [← Rat.num_div_den a, ← Rat.num_div_den b]
  field_simp

theorem ratMul_eq (a b : ℚ) : ratMul a b = a * b := by
  rw [ratMul, Rat.mkRat_eq_div]
  have ha : ((a.den : ℚ)) ≠ 0 := by exact_mod_cast a.den_ne_zero
  have hb : ((b.den : ℚ)) ≠ 0 := by exact_mod_cast b.den_ne_zero
  conv_rhs => rw [← Rat.num_div_den a, ← Rat.num_div_den b]
  field_simp

theorem ratDiv_eq (a b : ℚ) : ratDiv a b = a / b := by
  by_cases hb : b = 0
  · subst hb
    simp [ratDiv]
  · have hbn : b.num ≠ 0 := Rat.num_ne_zero.mpr hb
    rw [ratDiv, Rat.divInt_eq_div]
    have ha : ((a.den : ℚ)) ≠ 0 := by exact_mod_cast a.den_ne_zero
    have hbd : ((b.den : ℚ)) ≠ 0 := by exact_mod_cast b.den_ne_zero
    have hbnq : ((b.num : ℚ)) ≠ 0 := by exact_mod_cast hbn
    conv_rhs => rw [← Rat.num_div_den a, ← Rat.num_div_den b]
    field_simp

/-- C1: claimed — with an empty selection `calculateScenarioImpact`
returns mitigated cost equal to the baseline 24500000 and savings 0,
rather than propagating `NaN` from `totalReduction / selectedCount`.
The code has no such special case: `0 / 0` is `NaN` and it propagates
into both `withMitigation` and `savings`, as this evaluation shows, so
the claim describes the intended behaviour (also encoded in the
component's initial state) and the code diverges from it. -/
theorem c1_empty_selection_propagates_nan :
    calculateScenarioImpact [] =
      { currentProjection := JSNumber.fin 24500000, withMitigation := JSNumber.nan,
        savings := JSNumber.nan, cost := JSNumber.fin 0 } := by
  decide

/-- C2: claimed — no derived percentage or average is ever `NaN` or
`Infinity`, degenerate inputs being guarded.  The code has no guard: on
the empty filtered set the average cost per event is `0 / 0 = NaN`, and
on a one-event set of cost zero the category percentage is
`round(0 / 0 * 100) = NaN`. -/
theorem c2_degenerate_aggregates_are_nan :
    avgCostPerEvent [] = JSNumber.nan ∧
      (costByWeatherType [zeroCostEvent]).map (fun b => b.percentage) = [JSNumber.nan] := by
  constructor
  · decide
  · decide

/-- C10: in the primary variant, a load whose cleaned set is empty never
reaches the loaded state (it throws `No valid data after cleaning` into
the fatal error state), so the event set is non-empty whenever the
dashboard proceeds past loading. -/
theorem c10_loaded_set_nonempty :
    ∀ (rows : List Row) (evs : List Event),
      loadOutcome rows = LoadOutcome.loaded evs → evs ≠ [] := by
  intro rows evs h hnil
  unfold loadOutcome at h
  by_cases hl : (cleanedData rows).length = 0
  · rw [if_pos hl] at h
    exact LoadOutcome.noConfusion h
  · rw [if_neg hl] at h
    cases h
    exact hl (by rw [hnil]; rfl)

/-- Witness for C10 at a concrete well-formed row: the load succeeds and
the theorem yields a non-empty event set. -/
theorem c10_loaded_set_nonempty_witness :
    loadOutcome [goodRow] = LoadOutcome.loaded (cleanedData [goodRow]) ∧
      cleanedData [goodRow] ≠ [] :=
  ⟨rfl, c10_loaded_set_nonempty [goodRow] (cleanedData [goodRow]) rfl⟩

/-- The scenario catalog with its decimal literals written as explicit
fractions, proved equal to the catalog; needed because the decimal
literal form does not evaluate under kernel reduction. -/
theorem scenarios_eq_mkRat :
    scenarios =
      [ { id := "scenario1", name := "Enhanced stormwater infrastructure",
          reduction := mkRat 1 4, cost := 2000000, stype := "flood" },
        { id := "scenario2", name := "Wind-resistant building upgrades",
          reduction := mkRat 2 5, cost := 3500000, stype := "hurricane" },
        { id := "scenario3", name := "Wildfire prevention measures",
          reduction := mkRat 3 10, cost := 1500000, stype := "fire" },
        { id := "scenario4", name := "Winter weather preparedness",
          reduction := mkRat 1 5, cost := 1000000, stype := "winter" } ] := by
  simp only [scenarios, Scenario.mk.injEq, List.cons.injEq, and_true, true_and, List.nil_eq]
  norm_num [Rat.mkRat_eq_div]

/-- C9 counterexample: under IEEE binary64 arithmetic — what the source
actually computes — the selection scenario1 + scenario2 does not produce
mitigated cost 16537500 exactly nor savings 7962500 exactly (0.4 is not
representable and `1 - 0.65 / 2` rounds, leaving both results one ulp
away), so the claim's exact equalities are false of the program. -/
theorem c9_counterexample_ieee_one_ulp :
    (calculateScenarioImpactFP ["scenario1", "scenario2"]).withMitigation ≠
        JSNumber.fin 16537500 ∧
    (calculateScenarioImpactFP ["scenario1", "scenario2"]).savings ≠
        JSNumber.fin 7962500 := by
  constructor
  · simp only [calculateScenarioImpactFP, scenarioTotalsFP, scenarios_eq_mkRat]
    decide
  · simp only [calculateScenarioImpactFP, scenarioTotalsFP, scenarios_eq_mkRat]
    decide

/-- C9 amended: in binary64 arithmetic the selected reduction fractions
still combine by a plain additive sum (appending a selected id adds the
rounded sum with that scenario's double reduction) and the sum is not
capped at 1 (all four scenarios total about 1.15 > 1); the total for
scenario1 + scenario2 equals the double denoted by the literal 0.65, and
the calculator returns mitigated cost `16537500 + 2 ^ (-29)`
(16537500.000000002) and savings `7962500 - 2 ^ (-29)`
(7962499.999999998) — each exactly one ulp away from the spec's ideal
16537500 and 7962500. -/
theorem c9_scenario_binary64_values :
    (∀ (sel : List String) (sid : String),
        (scenarioTotalsFP (sel ++ [sid])).1 =
          if (scenarios.find? (fun s => s.id == sid)).isSome then
            fpAdd (scenarioTotalsFP sel).1 (fpRound (scenarioReduction sid))
          else (scenarioTotalsFP sel).1) ∧
    (scenarioTotalsFP ["scenario1", "scenario2"]).1 = fpRound 0.65 ∧
    1 < (scenarioTotalsFP ["scenario1", "scenario2", "scenario3", "scenario4"]).1 ∧
    calculateScenarioImpactFP ["scenario1", "scenario2"] =
      { currentProjection := JSNumber.fin 24500000,
        withMitigation := JSNumber.fin (mkRat 8878502707200001 536870912),
        savings := JSNumber.fin (mkRat 4274834636799999 536870912),
        cost := JSNumber.fin 5500000 } ∧
    (mkRat 8878502707200001 536870912 : ℚ) = 16537500 + mkRat 1 536870912 ∧
    (mkRat 4274834636799999 536870912 : ℚ) = 7962500 - mkRat 1 536870912 := by
  have h65 : (0.65 : ℚ) = mkRat 13 20 := by
    rw [Rat.mkRat_eq_div]
    norm_num
  refine ⟨?_, ?_, ?_, ?_, ?_, ?_⟩
  · intro sel sid
    unfold scenarioTotalsFP
    rw [List.foldl_append]
    simp only [List.foldl]
    cases h : scenarios.find? (fun s => s.id == sid) <;>
      simp [scenarioReduction, h]
  · rw [h65]
    simp only [scenarioTotalsFP, scenarios_eq_mkRat]
    decide
  · simp only [scenarioTotalsFP, scenarios_eq_mkRat]
    decide
  · simp only [calculateScenarioImpactFP, scenarioTotalsFP, scenarios_eq_mkRat]
    decide
  · rw [Rat.mkRat_eq_div, Rat.mkRat_eq_div]
    norm_num
  · rw [Rat.mkRat_eq_div, Rat.mkRat_eq_div]
    norm_num

/-- C5: the classifier is exactly first-match evaluation of the ordered
rule list of section 4.2 on the lowercased, trimmed description (so rule
order decides multi-keyword descriptions), and in particular
`Tropical Storm with high wind` resolves to Hurricane/Tropical Storm,
not Severe Storm, because that rule is checked first. -/
theorem c5_classifier_is_ordered_first_match :
    (∀ t : String, normalizeWeatherType (some t) = classifySpec t) ∧
    normalizeWeatherType (some "Tropical Storm with high wind") = "Hurricane/Tropical Storm" ∧
    classifySpec "Tropical Storm with high wind" = "Hurricane/Tropical Storm" := by
  refine ⟨?_, by decide, by decide⟩
  intro t
  by_cases h0 : t = ""
  · subst h0; decide
  · simp only [normalizeWeatherType, classifySpec, classifyRules, jsTruthyStr, strOfUndef,
      List.find?, List.any_cons, List.any_nil, Bool.or_false, Bool.or_assoc, h0]
    repeat' split
    all_goals (try rfl)
    all_goals (try (simp_all only [Bool.not_eq_true, Bool.not_not, beq_iff_eq,
      Option.some.injEq, reduceCtorEq]))
    all_goals (rename_i heq; exact heq ▸ rfl)

/-- C6: the classifier is a total function into the ten fixed
categories (determinism is inherent in it being a function); the empty
and absent descriptions classify as Other, and the misspelling
`TORANDO` is still Tornado. -/
theorem c6_classifier_total_ten_categories :
    (∀ t : Option String, normalizeWeatherType t ∈ allCategories) ∧
    normalizeWeatherType none = "Other" ∧
    normalizeWeatherType (some "") = "Other" ∧
    normalizeWeatherType (some "TORANDO warning") = "Tornado" := by
  refine ⟨?_, by decide, by decide, by decide⟩
  intro t
  simp only [normalizeWeatherType, allCategories]
  repeat' split
  all_goals decide

/-- C3 counterexample: the row with cost "1000" and date text "garbage"
must be excluded according to the claim (its date does not parse into a
valid calendar date), yet the primary ingestion keeps it — the date is
only checked for presence, and the `Date` constructor yields an invalid
date instead of throwing, so the row survives with Year `NaN`. -/
theorem c3_counterexample_bad_date_kept :
    claimRowRetained badDateRow = false ∧
    (cleanedData [badDateRow]).length = 1 ∧
    (cleanedData [badDateRow]).map (fun e => e.Year) = [JSNumber.nan] := by
  refine ⟨by decide, by decide, by decide⟩

/-- C3 amended: a row is excluded if and only if its cost is absent or
not parseable, or its date field is absent; a present but malformed date
text does not exclude the row (it is retained with an invalid date and
`NaN` year).  Retained rows appear in input order. -/
theorem c3_amended_retention_rule :
    ∀ rows : List Row,
      cleanedData rows =
        (rows.filter (fun r => primaryHasCost r && primaryHasDate r)).map primaryMkEvent := by
  intro rows
  simp only [cleanedData, List.filterMap_map]
  generalize rows.filter (fun r => primaryHasCost r && primaryHasDate r) = l
  induction l with
  | nil => rfl
  | cons a l ih =>
      simp only [Function.id_comp] at ih
      simp [List.filterMap_cons, primaryProcessRow, ih]

/-- C4 counterexample: the two ingestion variants disagree on the year
of a row whose literal `Year` column (1999) differs from the year
derived from its date 01/15/23 (2023). -/
theorem c4_counterexample_variants_differ :
    yearVariantA divergentYearRow ≠ yearVariantB divergentYearRow := by
  decide

/-- C4 amended: the two variants do not implement the same
year-derivation rule.  Variant A always derives `2000 + YY` from the
parsed date; variant B returns the literal `Year` column whenever it is
present (truthy), so on the divergent row variant A yields 2023 and
variant B yields 1999. -/
theorem c4_amended_year_rules_differ :
    (∀ r : Row, jsTruthyStr r.Year = true → yearVariantB r = parseFloatOpt r.Year) ∧
    yearVariantA divergentYearRow = JSNumber.fin 2023 ∧
    yearVariantB divergentYearRow = JSNumber.fin 1999 := by
  refine ⟨?_, by decide, by decide⟩
  intro r h
  unfold yearVariantB
  rw [if_pos h]

/-- Witness for the hypothesis of the C4 amended theorem at the
divergent row. -/
theorem c4_amended_year_rules_differ_witness :
    jsTruthyStr divergentYearRow.Year = true ∧
      yearVariantB divergentYearRow = parseFloatOpt divergentYearRow.Year :=
  ⟨by decide, c4_amended_year_rules_differ.1 divergentYearRow (by decide)⟩

/-- C8 counterexample: the second variant's filter compares the raw
`Weather Event` string against the selector, so the event described
`Hurricane Mawar` — whose derived category is exactly the selected
Hurricane/Tropical Storm — is dropped, where the claim requires it
retained. -/
theorem c8_counterexample_raw_match :
    part1FilteredData [mawarEvent] "all" "Hurricane/Tropical Storm" = [] ∧
    normalizeWeatherType mawarEvent.weatherEvent = "Hurricane/Tropical Storm" := by
  refine ⟨by decide, by decide⟩

/-- A bucket value that is an actual finite number (every bucket built
from ingested events is, since the row filter discards `NaN` costs). -/
def finVal (x : CostBucket) : Prop := ∃ q, x.value = JSNumber.fin q

theorem jsLtB_asymm {x y : JSNumber} (h : jsLtB x y = true) : jsLtB y x = false := by
  cases x <;> cases y <;> simp_all [jsLtB]
  exact le_of_lt h

theorem jsLtB_ne {x y : JSNumber} (h : jsLtB x y = true) : x ≠ y := by
  cases x <;> cases y <;> simp_all [jsLtB]
  exact ne_of_lt h

theorem jsLtB_fin_false {p q : ℚ} :
    jsLtB (JSNumber.fin p) (JSNumber.fin q) = false ↔ q ≤ p := by
  simp [jsLtB, not_lt]

theorem mem_insertDescBucket {x a : CostBucket} :
    ∀ {l : List CostBucket}, x ∈ insertDescBucket a l ↔ x = a ∨ x ∈ l := by
  intro l
  induction l with
  | nil => simp [insertDescBucket]
  | cons b bs ih =>
      unfold insertDescBucket
      by_cases h : jsLtB a.value b.value = true
      · rw [if_pos h]
        simp [ih]
        tauto
      · rw [if_neg h]
        simp

theorem mem_sortDescBuckets {x : CostBucket} :
    ∀ {l : List CostBucket}, x ∈ sortDescBuckets l ↔ x ∈ l := by
  intro l
  induction l with
  | nil => simp [sortDescBuckets]
  | cons b bs ih =>
      unfold sortDescBuckets
      rw [mem_insertDescBucket]
      simp [ih]

theorem pairwise_insertDescBucket (a : CostBucket) :
    ∀ (l : List CostBucket), finVal a → (∀ x ∈ l, finVal x) →
      l.Pairwise (fun x y => jsLtB x.value y.value = false) →
      (insertDescBucket a l).Pairwise (fun x y => jsLtB x.value y.value = false) := by
  intro l
  induction l with
  | nil =>
      intro _ _ _
      simp [insertDescBucket]
  | cons b bs ih =>
      intro hfa hfl hs
      rw [List.pairwise_cons] at hs
      obtain ⟨hb, hbs⟩ := hs
      unfold insertDescBucket
      by_cases h : jsLtB a.value b.value = true
      · rw [if_pos h]
        rw [List.pairwise_cons]
        constructor
        · intro y hy
          rcases mem_insertDescBucket.mp hy with rfl | hy'
          · exact jsLtB_asymm h
          · exact hb y hy'
        · exact ih hfa (fun x hx => hfl x (List.mem_cons_of_mem _ hx)) hbs
      · rw [if_neg h]
        rw [List.pairwise_cons]
        constructor
        · intro y hy
          rcases List.mem_cons.mp hy with rfl | hy'
          · exact Bool.eq_false_iff.mpr h
          · obtain ⟨p, hp⟩ := hfa
            obtain ⟨q, hq⟩ := hfl b (List.mem_cons_self _ _)
            obtain ⟨s, hsv⟩ := hfl y (List.mem_cons_of_mem _ hy')
            have h1 : q ≤ p := by
              rw [hp, hq] at h
              exact jsLtB_fin_false.mp (Bool.eq_false_iff.mpr h)
            have h2 : s ≤ q := by
              have := hb y hy'
              rw [hq, hsv] at this
              exact jsLtB_fin_false.mp this
            rw [hp, hsv]
            exact jsLtB_fin_false.mpr (le_trans h2 h1)
        · rw [List.pairwise_cons]
          exact ⟨hb, hbs⟩

theorem pairwise_sortDescBuckets :
    ∀ (l : List CostBucket), (∀ x ∈ l, finVal x) →
      (sortDescBuckets l).Pairwise (fun x y => jsLtB x.value y.value = false) := by
  intro l
  induction l with
  | nil =>
      intro _
      simp [sortDescBuckets]
  | cons b bs ih =>
      intro hfl
      unfold sortDescBuckets
      refine pairwise_insertDescBucket b _ (hfl b (List.mem_cons_self _ _)) ?_ ?_
      · intro x hx
        exact hfl x (List.mem_cons_of_mem _ (mem_sortDescBuckets.mp hx))
      · exact ih (fun x hx => hfl x (List.mem_cons_of_mem _ hx))

theorem filter_insertDescBucket (a : CostBucket) (v : JSNumber) :
    ∀ (l : List CostBucket),
      (insertDescBucket a l).filter (fun b => b.value == v) =
        if a.value == v then a :: l.filter (fun b => b.value == v)
        else l.filter (fun b => b.value == v) := by
  intro l
  induction l with
  | nil =>
      by_cases hav : (a.value == v) = true <;>
        simp [insertDescBucket, List.filter, hav]
  | cons b bs ih =>
      unfold insertDescBucket
      by_cases h : jsLtB a.value b.value = true
      · rw [if_pos h]
        by_cases hav : (a.value == v) = true
        · have hbv : (b.value == v) = false := by
            have hne : a.value ≠ b.value := jsLtB_ne h
            rw [beq_iff_eq] at hav
            rw [Bool.eq_false_iff, ne_eq, beq_iff_eq]
            intro hb
            exact hne (hav.trans hb.symm)
          simp [List.filter_cons, hbv, ih, hav]
        · simp [List.filter_cons, ih, hav]
      · rw [if_neg h]
        by_cases hav : (a.value == v) = true
        · simp [List.filter_cons, hav]
        · simp [List.filter_cons, hav]

theorem filter_sortDescBuckets (v : JSNumber) :
    ∀ (l : List CostBucket),
      (sortDescBuckets l).filter (fun b => b.value == v) =
        l.filter (fun b => b.value == v) := by
  intro l
  induction l with
  | nil => rfl
  | cons b bs ih =>
      unfold sortDescBuckets
      rw [filter_insertDescBucket]
      by_cases hbv : (b.value == v) = true
      · simp [hbv, ih, List.filter_cons]
      · simp [hbv, ih, List.filter_cons]

theorem foldl_jsAdd_fin :
    ∀ (l : List Event) (q0 : ℚ), (∀ e ∈ l, ∃ q, e.Cost = JSNumber.fin q) →
      ∃ q, l.foldl (fun acc e => jsAdd acc e.Cost) (JSNumber.fin q0) = JSNumber.fin q := by
  intro l
  induction l with
  | nil =>
      intro q0 _
      exact ⟨q0, rfl⟩
  | cons e l ih =>
      intro q0 h
      obtain ⟨qe, he⟩ := h e (List.mem_cons_self _ _)
      simp only [List.foldl, he, jsAdd]
      exact ih _ (fun x hx => h x (List.mem_cons_of_mem _ hx))

theorem jsSumBy_fin {l : List Event} (h : ∀ e ∈ l, ∃ q, e.Cost = JSNumber.fin q) :
    ∃ q, jsSumBy l = JSNumber.fin q :=
  foldl_jsAdd_fin l 0 h

theorem value_of_mem_instGroupTotals {evs : List Event} {b : CostBucket}
    (hb : b ∈ instGroupTotals evs) :
    b.value = jsSumBy (evs.filter (fun e => instKeyOf e == b.name)) := by
  rw [instGroupTotals, List.mem_map] at hb
  obtain ⟨k, _, rfl⟩ := hb
  rfl

/-- C7: the by-installation view groups the filtered events by exact
installation string with each bucket's value the sum of its group's
costs, never returns more than 10 entries, is sorted descending by
value (no later entry strictly exceeds an earlier one; stated for event
sets with finite costs, which ingestion guarantees), and entries tied on
a value keep their group-discovery relative order: for every value, the
view's buckets of that value form a prefix of the discovery-ordered
bucket list restricted to that value. -/
theorem c7_costByInstallation_top10 (evs : List Event) :
    (costByInstallation evs).length ≤ 10 ∧
    (∀ b ∈ costByInstallation evs,
        b.value = jsSumBy (evs.filter (fun e => instKeyOf e == b.name))) ∧
    (∀ v : JSNumber,
        List.IsPrefix
          ((costByInstallation evs).filter (fun b => b.value == v))
          ((instGroupTotals evs).filter (fun b => b.value == v))) ∧
    ((∀ e ∈ evs, ∃ q, e.Cost = JSNumber.fin q) →
        (costByInstallation evs).Pairwise (fun a b => jsLtB a.value b.value = false)) := by
  refine ⟨?_, ?_, ?_, ?_⟩
  · exact List.length_take_le _ _
  · intro b hb
    have hb1 : b ∈ sortDescBuckets (instGroupTotals evs) := List.mem_of_mem_take hb
    exact value_of_mem_instGroupTotals (mem_sortDescBuckets.mp hb1)
  · intro v
    have h1 : List.IsPrefix
        ((costByInstallation evs).filter (fun b => b.value == v))
        ((sortDescBuckets (instGroupTotals evs)).filter (fun b => b.value == v)) :=
      (List.take_prefix _ _).filter _
    rwa [filter_sortDescBuckets] at h1
  · intro hfin
    have hfl : ∀ x ∈ instGroupTotals evs, finVal x := by
      intro x hx
      rw [instGroupTotals, List.mem_map] at hx
      obtain ⟨k, _, rfl⟩ := hx
      exact jsSumBy_fin (fun e he => hfin e (List.mem_of_mem_filter he))
    exact (pairwise_sortDescBuckets _ hfl).sublist (List.take_sublist _ _)

/-- Witness for C7's conditional clauses at a concrete one-event set:
the finite-cost hypothesis holds there and the theorem then yields the
bucket-value equation and the sortedness of the view. -/
theorem c7_costByInstallation_top10_witness :
    (∀ e ∈ [mawarEvent], ∃ q, e.Cost = JSNumber.fin q) ∧
    (∀ b ∈ costByInstallation [mawarEvent],
        b.value = jsSumBy ([mawarEvent].filter (fun e => instKeyOf e == b.name))) ∧
    (costByInstallation [mawarEvent]).Pairwise
      (fun a b => jsLtB a.value b.value = false) := by
  have hfin : ∀ e ∈ [mawarEvent], ∃ q, e.Cost = JSNumber.fin q := by
    intro e he
    rw [List.mem_singleton] at he
    subst he
    exact ⟨500, rfl⟩
  exact ⟨hfin, (c7_costByInstallation_top10 [mawarEvent]).2.1,
    (c7_costByInstallation_top10 [mawarEvent]).2.2.2 hfin⟩

/-- C8 amended: the primary variant's filter retains exactly the events
whose `Year` strictly equals `parseFloat` of the year selector (or the
selector is `all`) and whose classifier-derived category equals the type
selector (or it is `all`), both conditions conjoined, returning a new
list; the second variant instead compares the raw description string. -/
theorem c8_amended_primary_filter_exact :
    ∀ (evs : List Event) (y c : String),
      filteredData evs y c =
        evs.filter (fun e =>
          ((y == "all") || jsStrictEq e.Year (parseFloatStr y)) &&
            ((c == "all") || (normalizeWeatherType e.weatherEvent == c))) := by
  intro evs y c
  unfold filteredData
  apply List.filter_congr
  intro e _
  cases h1 : (y == "all") <;> cases h2 : jsStrictEq e.Year (parseFloatStr y) <;>
    cases h3 : (c == "all") <;> cases h4 : (normalizeWeatherType e.weatherEvent == c) <;>
    simp [h1, h2, h3, h4]

end WeatherDash
